import Mathlib

/-!
Verification of the CommuteCompute e-ink firmware against its design
specification.  The definitions below are shallow embeddings of the
functions in `src/firmware`:

* `base64_char_value`, `decode_base64_length`, `decode_base64`
  from `src/firmware/include/base64.hpp`;
* `decodeAndDrawZone` from `src/firmware/variants/main-zones.cpp`
  (identical logic in `src/firmware/src/main-tiered.cpp`);
* `drawBMPZone` from the BMP-parsing tail of `fetchAndDrawZone` in
  `src/firmware/src/main-v7.cpp`;
* `getBackoffDelay_v6` / `getBackoffDelay_v7` from
  `src/firmware/src/main-v6.cpp` / `main-v7.cpp`;
* `v7Cycle` from the `STATE_FETCH_ZONES` body of `loop()` in
  `src/firmware/src/main-v7.cpp`;
* `v12CycleState` / `v12CycleOps` from `loop()` and `fetchAndDrawZone`
  in `src/firmware/src/zones-v12.cpp`.

Bytes are modelled as natural numbers (the sources read them through
`unsigned char`); `size_t` / `unsigned long` arithmetic is 32-bit
(ESP32-C3), taken modulo `2 ^ 32` wherever wrap-around is reachable.
-/

/-! ## Base64 decoder (`src/firmware/include/base64.hpp`) -/

/-- Embedding of `base64_char_value`: the value of one base64 symbol,
`none` for the C function's `-1`. -/
def base64_char_value (c : ℕ) : Option ℕ :=
  if 65 ≤ c ∧ c ≤ 90 then some (c - 65)
  else if 97 ≤ c ∧ c ≤ 122 then some (c - 97 + 26)
  else if 48 ≤ c ∧ c ≤ 57 then some (c - 48 + 52)
  else if c = 43 then some 62
  else if c = 47 then some 63
  else none

/-- The characters skipped by the decoder's whitespace test
(`'\n'`, `'\r'`, `' '`, `'\t'`). -/
def isWS (c : ℕ) : Bool :=
  c = 10 || c = 13 || c = 32 || c = 9

/-- Embedding of `decode_base64_length`: decoded size precomputed from
the input length and the count of trailing `'='` bytes, in 32-bit
`size_t` arithmetic (`(inputLen * 3) / 4 - padding`). -/
def decode_base64_length (input : List ℕ) : ℕ :=
  if input.length = 0 then 0
  else
    let n := input.length
    let padding : ℕ :=
      (if 1 ≤ n ∧ input.getD (n - 1) 0 = 61 then 1 else 0) +
      (if 2 ≤ n ∧ input.getD (n - 2) 0 = 61 then 1 else 0)
    ((n * 3) % 2 ^ 32 / 4 + (2 ^ 32 - padding)) % 2 ^ 32

/-- The streaming loop of `decode_base64`: one input byte at a time,
skip whitespace, stop at the first `'='`, skip other non-symbols,
accumulate 6 bits per symbol in a 32-bit shift buffer and emit a byte
whenever 8 bits are available.  `out` holds the emitted bytes in
reverse. -/
def decode_base64_aux : List ℕ → ℕ → ℕ → List ℕ → List ℕ
  | [], _, _, out => out.reverse
  | c :: rest, buffer, bits, out =>
    if isWS c then decode_base64_aux rest buffer bits out
    else if c = 61 then out.reverse
    else
      match base64_char_value c with
      | none => decode_base64_aux rest buffer bits out
      | some v =>
        let buffer2 := ((buffer <<< 6) ||| v) % 2 ^ 32
        let bits2 := bits + 6
        if 8 ≤ bits2 then
          decode_base64_aux rest buffer2 (bits2 - 8)
            (((buffer2 >>> (bits2 - 8)) &&& 255) :: out)
        else
          decode_base64_aux rest buffer2 bits2 out

/-- Embedding of `decode_base64`: the list of bytes the decoder writes
to the output buffer, in order. -/
def decode_base64 (input : List ℕ) : List ℕ :=
  if input.length = 0 then [] else decode_base64_aux input 0 0 []

/-! ## Zone payload decode (`decodeAndDrawZone` in
`variants/main-zones.cpp` lines 321-352 and `src/main-tiered.cpp`
lines 642-656) -/

/-- Destination capacity `ZONE_BMP_MAX_SIZE` shared by
`variants/main-zones.cpp` and `src/main-tiered.cpp`. -/
def ZONE_BMP_MAX_SIZE : ℕ := 20000

/-- Outcome of `decodeAndDrawZone` up to the blit call. -/
inductive ZoneDecodeResult
  | sizeError
  | formatError
  | ok
deriving DecidableEq, Repr

/-- Embedding of `decodeAndDrawZone` (decode portion): precompute the
decoded length, fail before decoding when it exceeds the capacity,
otherwise run `decode_base64` into the buffer and check the `BM`
magic.  The second component is the list of bytes written to
`zoneBmpBuffer`. -/
def decodeAndDrawZone (data : List ℕ) (cap : ℕ) :
    ZoneDecodeResult × List ℕ :=
  let dl := decode_base64_length data
  if cap < dl then (ZoneDecodeResult.sizeError, [])
  else
    let buf := decode_base64 data
    if buf.getD 0 0 = 66 ∧ buf.getD 1 0 = 77 then
      (ZoneDecodeResult.ok, buf)
    else
      (ZoneDecodeResult.formatError, buf)

/-! ## BMP container parsing and zone drawing
(`fetchAndDrawZone` in `src/firmware/src/main-v7.cpp` lines 448-501) -/

/-- A zone of the static registry (`struct ZoneDef` in `main-v7.cpp`). -/
structure ZoneDef where
  id : String
  x : ℤ
  y : ℤ
  w : ℤ
  h : ℤ
deriving DecidableEq, Repr

/-- The zone registry of `main-v7.cpp` (`ZONES[]`, lines 84-89). -/
def ZONES_v7 : List ZoneDef :=
  [{ id := "header", x := 0, y := 0, w := 800, h := 94 },
   { id := "summary", x := 0, y := 96, w := 800, h := 28 },
   { id := "legs", x := 0, y := 132, w := 800, h := 316 },
   { id := "footer", x := 0, y := 448, w := 800, h := 32 }]

/-- Little-endian 32-bit unsigned read at byte offset `off`. -/
def le32 (buf : List ℕ) (off : ℕ) : ℕ :=
  buf.getD off 0 + 256 * buf.getD (off + 1) 0 +
    65536 * buf.getD (off + 2) 0 + 16777216 * buf.getD (off + 3) 0

/-- Little-endian 32-bit signed read (`int32_t`). -/
def le32i (buf : List ℕ) (off : ℕ) : ℤ :=
  let v := le32 buf off
  if v < 2 ^ 31 then (v : ℤ) else (v : ℤ) - 2 ^ 32

/-- Little-endian 16-bit unsigned read (`uint16_t`). -/
def le16 (buf : List ℕ) (off : ℕ) : ℕ :=
  buf.getD off 0 + 256 * buf.getD (off + 1) 0

/-- Pixel colors passed to `bbep.drawPixel`. -/
inductive Color
  | black
  | white
deriving DecidableEq, Repr

/-- One `bbep.drawPixel(x, y, color)` call. -/
structure DrawPixelOp where
  x : ℤ
  y : ℤ
  c : Color
deriving DecidableEq, Repr

/-- Embedding of the BMP-parsing and drawing tail of `fetchAndDrawZone`
in `main-v7.cpp` (after the body bytes have been received): check the
54-byte minimum and the `BM` magic, read pixel offset, width, height
(sign selects bottom-up vs top-down row order) and bit depth, reject
any depth other than 1, then emit the `drawPixel` calls of the
row/column loops.  `none` is a rejection (`return false`), `some ops`
a success. -/
def drawBMPZone (buf : List ℕ) (zone : ZoneDef) :
    Option (List DrawPixelOp) :=
  if buf.length < 54 then none
  else if ¬(buf.getD 0 0 = 66 ∧ buf.getD 1 0 = 77) then none
  else
    let pixelOffset := le32 buf 10
    let bmpWidth := le32i buf 18
    let hRaw := le32i buf 22
    let bitsPerPixel := le16 buf 28
    let bottomUp : Bool := 0 < hRaw
    let bmpHeight : ℤ := if hRaw < 0 then -hRaw else hRaw
    if bitsPerPixel ≠ 1 then none
    else
      let rowBytes : ℤ := ((bmpWidth + 31).tdiv 32) * 4
      let rowCount := (min bmpHeight zone.h).toNat
      let colCount := (min bmpWidth zone.w).toNat
      some <| (List.range rowCount).flatMap fun row =>
        (List.range colCount).map fun col =>
          let srcRow : ℤ :=
            if bottomUp then bmpHeight - 1 - (row : ℤ) else (row : ℤ)
          let byteVal :=
            buf.getD ((pixelOffset : ℤ) + srcRow * rowBytes + (col / 8 : ℕ)).toNat 0
          let bit := (byteVal >>> (7 - col % 8)) &&& 1
          { x := zone.x + (col : ℤ), y := zone.y + (row : ℤ),
            c := if bit = 0 then Color.black else Color.white }

/-- A well-formed 62-byte 1-bit BMP container whose header declares
width 8 and height exactly 0 (pixel data offset 62, DIB size 40,
planes 1, depth 1, two palette entries). -/
def bmp62 : List ℕ :=
  [66, 77, 0, 0, 0, 0, 0, 0, 0, 0,
   62, 0, 0, 0, 40, 0, 0, 0, 8, 0,
   0, 0, 0, 0, 0, 0, 1, 0, 1, 0,
   0, 0, 0, 0, 0, 0, 0, 0, 0, 0,
   0, 0, 0, 0, 0, 0, 0, 0, 0, 0,
   0, 0, 0, 0, 0, 0, 0, 0, 0, 0,
   0, 0]

/-! ## Error backoff (`getBackoffDelay` in `main-v6.cpp` lines 522-525
and `main-v7.cpp` lines 522-527) -/

/-- `MAX_BACKOFF_ERRORS` in `main-v6.cpp` (and `main-tiered.cpp`). -/
def MAX_BACKOFF_ERRORS : ℕ := 5

/-- Embedding of `getBackoffDelay` from `main-v6.cpp`:
`(1UL << min(consecutiveErrors, MAX_BACKOFF_ERRORS)) * 1000UL`. -/
def getBackoffDelay_v6 (consecutiveErrors : ℕ) : ℕ :=
  (1 <<< min consecutiveErrors MAX_BACKOFF_ERRORS) * 1000

/-- Embedding of `getBackoffDelay` from `main-v7.cpp`:
`min(5000UL << min(consecutiveErrors - 1, 4), 60000UL)`; only called
with `consecutiveErrors > 0`. -/
def getBackoffDelay_v7 (consecutiveErrors : ℕ) : ℕ :=
  min (5000 <<< min (consecutiveErrors - 1) 4) 60000

/-! ## Refresh-cycle state machine of `main-v7.cpp`
(`STATE_FETCH_ZONES` body of `loop()`, lines 239-317) -/

/-- `millis()` timestamps are 32-bit `unsigned long`; `now - last` in
the source is this wrapping subtraction. -/
def wsub (a b : ℕ) : ℕ :=
  (a + (2 ^ 32 - b % 2 ^ 32)) % 2 ^ 32

/-- `PARTIAL_REFRESH_MS` of `main-v7.cpp` (20 s). -/
def REFRESH_MS_v7 : ℕ := 20000

/-- `FULL_REFRESH_MS` of `main-v7.cpp` (10 min). -/
def FULL_REFRESH_MS_v7 : ℕ := 600000

/-- `MAX_PARTIAL_BEFORE_FULL` of `main-v7.cpp`. -/
def MAX_PR_BEFORE_FULL : ℕ := 30

/-- The controller state owned by `main-v7.cpp`'s globals.  `prCount`
is the source's `partialRefreshCount`; `zoneChanged` the
`zoneChanged[ZONE_COUNT]` array (4 zones). -/
structure V7State where
  initialDrawDone : Bool
  lastRefresh : ℕ
  lastFullRefresh : ℕ
  prCount : ℕ
  consecutiveErrors : ℕ
  lastErrorTime : ℕ
  zoneChanged : Fin 4 → Bool

/-- `needsFull` as computed at `main-v7.cpp` lines 267-269:
`!initialDrawDone || (now - lastFullRefresh >= FULL_REFRESH_MS) ||
(partialRefreshCount >= MAX_PARTIAL_BEFORE_FULL)`. -/
def v7NeedsFull (s : V7State) (now : ℕ) : Bool :=
  (!s.initialDrawDone) ||
    decide (FULL_REFRESH_MS_v7 ≤ wsub now s.lastFullRefresh) ||
    decide (MAX_PR_BEFORE_FULL ≤ s.prCount)

/-- The `drawn` counter of the fetch loop: `fetchOk i` is whether
`fetchAndDrawZone(ZONES[i], !needsFull)` returned `true`. -/
def drawnCount (fetchOk : Fin 4 → Bool) : ℕ :=
  (List.finRange 4).countP fun i => fetchOk i

/-- One `STATE_FETCH_ZONES` pass of `main-v7.cpp` (lines 266-316),
given the fetch outcome of each zone: every zone is fetched
unconditionally; success clears its `zoneChanged` entry; then the
full/partial bookkeeping and the error counters are updated exactly as
in lines 295-313. -/
def v7Cycle (s : V7State) (now : ℕ) (fetchOk : Fin 4 → Bool) : V7State :=
  let needsFull := v7NeedsFull s now
  let drawn := drawnCount fetchOk
  let zc : Fin 4 → Bool := fun i => if fetchOk i then false else s.zoneChanged i
  let s1 : V7State :=
    if needsFull && decide (0 < drawn) then
      { s with lastFullRefresh := now, prCount := 0,
               initialDrawDone := true, zoneChanged := zc }
    else if decide (0 < drawn) && !needsFull then
      { s with prCount := s.prCount + 1, zoneChanged := zc }
    else
      { s with zoneChanged := zc }
  if 0 < drawn then
    { s1 with consecutiveErrors := 0, lastRefresh := now }
  else
    { s1 with consecutiveErrors := s1.consecutiveErrors + 1,
              lastErrorTime := now }

/-! ## Refresh-cycle of `zones-v12.cpp` (`loop()`, lines 77-100, and
`fetchAndDrawZone`, lines 137-167) -/

/-- A zone of the `zones-v12.cpp` registry (`struct ZoneDef` there,
with its refresh-priority field). -/
structure ZoneDefV12 where
  id : String
  x : ℤ
  y : ℤ
  w : ℤ
  h : ℤ
  refreshPriority : ℕ
deriving DecidableEq, Repr

/-- The zone registry of `zones-v12.cpp` (`ZONES[]`, lines 47-54). -/
def ZONES_v12 : List ZoneDefV12 :=
  [{ id := "time", x := 20, y := 45, w := 180, h := 70, refreshPriority := 1 },
   { id := "weather", x := 620, y := 10, w := 160, h := 95, refreshPriority := 2 },
   { id := "trains", x := 20, y := 155, w := 370, h := 150, refreshPriority := 1 },
   { id := "trams", x := 410, y := 155, w := 370, h := 150, refreshPriority := 1 },
   { id := "coffee", x := 20, y := 315, w := 760, h := 65, refreshPriority := 2 },
   { id := "footer", x := 0, y := 445, w := 800, h := 35, refreshPriority := 3 }]

/-- `FULL_REFRESH_INTERVAL` of `zones-v12.cpp` (5 min). -/
def FULL_REFRESH_INTERVAL_v12 : ℕ := 300000

/-- The controller state owned by `zones-v12.cpp`'s globals;
`partCount` is the source's `partialCount`. -/
structure V12State where
  initialDrawDone : Bool
  lastRefresh : ℕ
  lastFullRefresh : ℕ
  partCount : ℕ
deriving DecidableEq, Repr

/-- `needsFull` as computed at `zones-v12.cpp` line 82:
`!initialDrawDone || (now - lastFullRefresh >= FULL_REFRESH_INTERVAL)
|| (partialCount >= 30)`. -/
def v12NeedsFull (s : V12State) (now : ℕ) : Bool :=
  (!s.initialDrawDone) ||
    decide (FULL_REFRESH_INTERVAL_v12 ≤ wsub now s.lastFullRefresh) ||
    decide (30 ≤ s.partCount)

/-- One display-driver call issued by `zones-v12.cpp`. -/
inductive DispOp
  | fillRect (x y w h : ℤ) (c : Color)
  | refreshPart
  | refreshFull
  | loadBMP (x y : ℤ)
deriving DecidableEq, Repr

/-- Outcome of one `fetchAndDrawZone` HTTP fetch in `zones-v12.cpp`:
either the fetch fails before any display call (HTTP error, bad size,
short read, or missing `BM` magic, lines 145-164), or the body was
received with magic intact, with the zone rectangle after the
`X-Zone-*` header overrides and the success of the final
`bbep.loadBMP`. -/
inductive FetchOutcome
  | fetchFail
  | fetched (zX zY zW zH : ℤ) (blitOk : Bool)
deriving DecidableEq, Repr

/-- Display calls of one `fetchAndDrawZone(zone, doFlash)` invocation
(lines 165-166): when `doFlash`, fill the zone rectangle black and
partial-refresh before `loadBMP`. -/
def fetchDrawOps (doFlash : Bool) (o : FetchOutcome) : List DispOp :=
  match o with
  | FetchOutcome.fetchFail => []
  | FetchOutcome.fetched zX zY zW zH _ =>
    (if doFlash then
      [DispOp.fillRect zX zY zW zH Color.black, DispOp.refreshPart]
     else []) ++ [DispOp.loadBMP zX zY]

/-- The boolean result of `fetchAndDrawZone`. -/
def fetchDrawOk (o : FetchOutcome) : Bool :=
  match o with
  | FetchOutcome.fetchFail => false
  | FetchOutcome.fetched _ _ _ _ ok => ok

/-- Number of zone-data HTTP fetches the loop issues for one zone
(`if (changedFlags[i] || needsFull)` gate at line 89). -/
def v12ZoneFetches (needsFull changed : Bool) : ℕ :=
  if changed || needsFull then 1 else 0

/-- Display calls the loop issues for one zone (lines 88-96): nothing
when the gate is closed; otherwise the `fetchAndDrawZone` calls
followed, on success outside a full cycle, by the per-zone partial
refresh of line 92. -/
def v12ZoneOps (needsFull changed : Bool) (o : FetchOutcome) : List DispOp :=
  if changed || needsFull then
    fetchDrawOps (!needsFull) o ++
      (if fetchDrawOk o && !needsFull then [DispOp.refreshPart] else [])
  else []

/-- Whether the loop counts this zone in `drawn`. -/
def v12ZoneDrawn (needsFull changed : Bool) (o : FetchOutcome) : Bool :=
  (changed || needsFull) && fetchDrawOk o

/-- The `drawn` counter over the six registry zones. -/
def v12DrawnCount (needsFull : Bool) (changed : Fin 6 → Bool)
    (o : Fin 6 → FetchOutcome) : ℕ :=
  (List.finRange 6).countP fun i => v12ZoneDrawn needsFull (changed i) (o i)

/-- All display calls of one `zones-v12.cpp` refresh pass (`listOk` is
whether `fetchChangedZoneList` succeeded; on failure the loop returns
before touching the display).  A full cycle ends with the single
`doFullRefresh()` of line 97. -/
def v12CycleOps (s : V12State) (now : ℕ) (changed : Fin 6 → Bool)
    (o : Fin 6 → FetchOutcome) (listOk : Bool) : List DispOp :=
  if listOk then
    let nf := v12NeedsFull s now
    ((List.finRange 6).flatMap fun i => v12ZoneOps nf (changed i) (o i)) ++
      (if nf && decide (0 < v12DrawnCount nf changed o) then
        [DispOp.refreshFull]
       else [])
  else []

/-- State update of one `zones-v12.cpp` refresh pass: `lastRefresh` is
set on entry (line 84); each successful non-full zone bumps
`partialCount` (line 92); a full cycle with at least one drawn zone
sets `lastFullRefresh`, clears the counter and marks the initial draw
done (line 97). -/
def v12CycleState (s : V12State) (now : ℕ) (changed : Fin 6 → Bool)
    (o : Fin 6 → FetchOutcome) (listOk : Bool) : V12State :=
  if listOk then
    let nf := v12NeedsFull s now
    let drawn := v12DrawnCount nf changed o
    let s1 := { s with lastRefresh := now,
                       partCount := s.partCount + (if nf then 0 else drawn) }
    if nf && decide (0 < drawn) then
      { s1 with lastFullRefresh := now, partCount := 0,
                initialDrawDone := true }
    else s1
  else { s with lastRefresh := now }

/-! ## Helper lemmas -/

lemma flatMap_nil_of {α β : Type} (l : List α) (f : α → List β)
    (h : ∀ x ∈ l, f x = []) : l.flatMap f = [] := by
  induction l with
  | nil => rfl
  | cons a t ih =>
    rw [List.flatMap_cons, h a (by simp), ih fun x hx => h x (by simp [hx])]
    rfl

lemma b64_symbol_iff (c : ℕ) :
    (base64_char_value c).isSome = true ↔
      (65 ≤ c ∧ c ≤ 90) ∨ (97 ≤ c ∧ c ≤ 122) ∨ (48 ≤ c ∧ c ≤ 57) ∨
        c = 43 ∨ c = 47 := by
  unfold base64_char_value
  split_ifs with h1 h2 h3 h4 h5 <;> simp <;> omega

lemma b64_symbol_not_ws {c : ℕ}
    (h : (base64_char_value c).isSome = true) : isWS c = false := by
  rw [b64_symbol_iff] at h
  simp only [isWS, Bool.or_eq_false_iff, decide_eq_false_iff_not]
  omega

lemma b64_symbol_ne_61 {c : ℕ}
    (h : (base64_char_value c).isSome = true) : c ≠ 61 := by
  rw [b64_symbol_iff] at h
  omega

/-- Output length of the streaming loop on a run of valid symbols:
6 bits per symbol, one byte out per 8 bits accumulated. -/
lemma auxLen_sym (l : List ℕ)
    (hall : ∀ c ∈ l, (base64_char_value c).isSome = true) :
    ∀ (b bits : ℕ) (out : List ℕ), bits < 8 →
      (decode_base64_aux l b bits out).length =
        out.length + (bits + 6 * l.length) / 8 := by
  induction l with
  | nil =>
    intro b bits out hb
    simp only [decode_base64_aux, List.length_reverse, List.length_nil]
    omega
  | cons c rest ih =>
    intro b bits out hb
    have hc : (base64_char_value c).isSome = true := hall c (by simp)
    have hrest : ∀ x ∈ rest, (base64_char_value x).isSome = true :=
      fun x hx => hall x (by simp [hx])
    obtain ⟨v, hv⟩ := Option.isSome_iff_exists.mp hc
    rw [decode_base64_aux]
    rw [b64_symbol_not_ws hc]
    simp only [Bool.false_eq_true, if_false, if_neg (b64_symbol_ne_61 hc), hv]
    by_cases hbe : 8 ≤ bits + 6
    · rw [if_pos hbe, ih hrest _ _ _ (by omega)]
      simp only [List.length_cons, List.length_cons]
      omega
    · rw [if_neg hbe, ih hrest _ _ _ (by omega)]
      simp only [List.length_cons]
      omega

/-- Output length when a run of valid symbols is followed by a padding
byte: the loop stops at the first `'='`. -/
lemma auxLen_pad (l : List ℕ)
    (hall : ∀ c ∈ l, (base64_char_value c).isSome = true) :
    ∀ (rest : List ℕ) (b bits : ℕ) (out : List ℕ), bits < 8 →
      (decode_base64_aux (l ++ 61 :: rest) b bits out).length =
        out.length + (bits + 6 * l.length) / 8 := by
  induction l with
  | nil =>
    intro rest b bits out hb
    simp only [List.nil_append, decode_base64_aux]
    norm_num [isWS]
    omega
  | cons c cs ih =>
    intro rest b bits out hb
    have hc : (base64_char_value c).isSome = true := hall c (by simp)
    have hcs : ∀ x ∈ cs, (base64_char_value x).isSome = true :=
      fun x hx => hall x (by simp [hx])
    rw [List.cons_append, decode_base64_aux]
    rw [b64_symbol_not_ws hc]
    obtain ⟨v, hv⟩ := Option.isSome_iff_exists.mp hc
    simp only [Bool.false_eq_true, if_false, if_neg (b64_symbol_ne_61 hc), hv]
    by_cases hbe : 8 ≤ bits + 6
    · rw [if_pos hbe, ih hcs _ _ _ _ (by omega)]
      simp only [List.length_cons, List.length_cons]
      omega
    · rw [if_neg hbe, ih hcs _ _ _ _ (by omega)]
      simp only [List.length_cons]
      omega

/-! ## The claims -/

/-- C1: in every refresh cycle, if the partial-refresh count
accumulated since the last full refresh has reached the configured
ceiling (30) when the cycle starts, the `needsFull` flag computed for
that cycle is true, in both the `main-v7.cpp` and the `zones-v12.cpp`
controller. -/
theorem claim1_forcedFull :
    (∀ (s : V7State) (now : ℕ), MAX_PR_BEFORE_FULL ≤ s.prCount →
      v7NeedsFull s now = true) ∧
    (∀ (s : V12State) (now : ℕ), 30 ≤ s.partCount →
      v12NeedsFull s now = true) := by
  constructor
  · intro s now h
    simp [v7NeedsFull, h]
  · intro s now h
    simp [v12NeedsFull, h]

theorem claim1_forcedFull_witness :
    v7NeedsFull
      { initialDrawDone := true, lastRefresh := 0, lastFullRefresh := 0,
        prCount := 30, consecutiveErrors := 0, lastErrorTime := 0,
        zoneChanged := fun _ => false } 100 = true ∧
    v12NeedsFull
      { initialDrawDone := true, lastRefresh := 0, lastFullRefresh := 0,
        partCount := 30 } 100 = true :=
  ⟨claim1_forcedFull.1 _ _ (by decide), claim1_forcedFull.2 _ _ (by decide)⟩

/-- C2: after any cycle in which `needsFull` was true and at least one
zone was successfully drawn, the partial-refresh counter is exactly 0,
in both the `main-v7.cpp` and the `zones-v12.cpp` controller. -/
theorem claim2_fullResetsCounter :
    (∀ (s : V7State) (now : ℕ) (fetchOk : Fin 4 → Bool),
      v7NeedsFull s now = true → 0 < drawnCount fetchOk →
      (v7Cycle s now fetchOk).prCount = 0) ∧
    (∀ (s : V12State) (now : ℕ) (changed : Fin 6 → Bool)
      (o : Fin 6 → FetchOutcome),
      v12NeedsFull s now = true →
      0 < v12DrawnCount (v12NeedsFull s now) changed o →
      (v12CycleState s now changed o true).partCount = 0) := by
  constructor
  · intro s now f h1 h2
    simp [v7Cycle, h1, h2]
  · intro s now changed o h1 h2
    rw [h1] at h2
    simp [v12CycleState, h1, h2]

theorem claim2_fullResetsCounter_witness :
    (v7Cycle
      { initialDrawDone := false, lastRefresh := 0, lastFullRefresh := 0,
        prCount := 7, consecutiveErrors := 0, lastErrorTime := 0,
        zoneChanged := fun _ => true } 5 (fun _ => true)).prCount = 0 ∧
    (v12CycleState
      { initialDrawDone := false, lastRefresh := 0, lastFullRefresh := 0,
        partCount := 7 } 5 (fun _ => false)
      (fun _ => FetchOutcome.fetched 0 0 1 1 true) true).partCount = 0 :=
  ⟨claim2_fullResetsCounter.1 _ 5 _ (by decide) (by decide),
   claim2_fullResetsCounter.2 _ 5 _ _ (by decide) (by decide)⟩

/-- C3: a zone update performed outside a full-screen refresh cycle
(`needsFull` false, zone reported changed, fetch and blit successful)
issues exactly the sequence fill-the-zone-rectangle-black, partial
refresh (the flash), draw the new content (`loadBMP`), partial
refresh — in that order (`zones-v12.cpp` lines 88-96 and 165-166). -/
theorem claim3_flashSequence :
    ∀ (changed : Bool) (o : FetchOutcome) (zX zY zW zH : ℤ),
      changed = true → o = FetchOutcome.fetched zX zY zW zH true →
      v12ZoneOps false changed o =
        [DispOp.fillRect zX zY zW zH Color.black, DispOp.refreshPart,
         DispOp.loadBMP zX zY, DispOp.refreshPart] := by
  intro changed o zX zY zW zH hc ho
  subst hc
  subst ho
  simp [v12ZoneOps, fetchDrawOps, fetchDrawOk]

theorem claim3_flashSequence_witness :
    v12ZoneOps false true (FetchOutcome.fetched 20 45 180 70 true) =
      [DispOp.fillRect 20 45 180 70 Color.black, DispOp.refreshPart,
       DispOp.loadBMP 20 45, DispOp.refreshPart] :=
  claim3_flashSequence true _ 20 45 180 70 rfl rfl

/-- C4: when the server reports a zone unchanged and `needsFull` is
false, the `zones-v12.cpp` controller issues no fetch and no display
call for that zone; when every zone is unchanged, the whole cycle
issues no display call at all and only `lastRefresh` advances. -/
theorem claim4_unchangedSkipped :
    ∀ (s : V12State) (now : ℕ) (changed : Fin 6 → Bool)
      (o : Fin 6 → FetchOutcome) (i : Fin 6),
      v12NeedsFull s now = false → changed i = false →
      v12ZoneFetches (v12NeedsFull s now) (changed i) = 0 ∧
      v12ZoneOps (v12NeedsFull s now) (changed i) (o i) = [] ∧
      ((∀ j, changed j = false) →
        v12CycleOps s now changed o true = [] ∧
        v12CycleState s now changed o true = { s with lastRefresh := now }) := by
  intro s now changed o i hnf hc
  refine ⟨?_, ?_, ?_⟩
  · simp [v12ZoneFetches, hnf, hc]
  · simp [v12ZoneOps, hnf, hc]
  · intro hall
    have hdrawn : v12DrawnCount false changed o = 0 := by
      simp only [v12DrawnCount]
      rw [List.countP_eq_zero]
      intro j _
      simp [v12ZoneDrawn, hall j]
    constructor
    · simp only [v12CycleOps, if_pos rfl, hnf, hdrawn]
      rw [flatMap_nil_of]
      · simp
      · intro j _
        simp [v12ZoneOps, hnf, hall j]
    · simp only [v12CycleState, if_pos rfl, hnf, hdrawn]
      simp

theorem claim4_unchangedSkipped_witness :
    v12ZoneFetches
      (v12NeedsFull
        { initialDrawDone := true, lastRefresh := 0, lastFullRefresh := 0,
          partCount := 0 } 5) false = 0 ∧
    v12ZoneOps
      (v12NeedsFull
        { initialDrawDone := true, lastRefresh := 0, lastFullRefresh := 0,
          partCount := 0 } 5) false FetchOutcome.fetchFail = [] ∧
    v12CycleOps
      { initialDrawDone := true, lastRefresh := 0, lastFullRefresh := 0,
        partCount := 0 } 5 (fun _ => false) (fun _ => FetchOutcome.fetchFail)
      true = [] ∧
    v12CycleState
      { initialDrawDone := true, lastRefresh := 0, lastFullRefresh := 0,
        partCount := 0 } 5 (fun _ => false) (fun _ => FetchOutcome.fetchFail)
      true =
      { initialDrawDone := true, lastRefresh := 5, lastFullRefresh := 0,
        partCount := 0 } := by
  have h := claim4_unchangedSkipped
    { initialDrawDone := true, lastRefresh := 0, lastFullRefresh := 0,
      partCount := 0 } 5 (fun _ => false) (fun _ => FetchOutcome.fetchFail)
    0 (by decide) rfl
  exact ⟨h.1, h.2.1, (h.2.2 fun j => rfl).1, (h.2.2 fun j => rfl).2⟩

/-- C6: whenever the precomputed decoded length of a payload exceeds
the destination capacity, `decodeAndDrawZone` fails with the size
error and writes nothing to the destination buffer: the bounds check
happens strictly before any byte is decoded. -/
theorem claim6_sizeGuard :
    ∀ (data : List ℕ) (cap : ℕ), cap < decode_base64_length data →
      decodeAndDrawZone data cap = (ZoneDecodeResult.sizeError, []) := by
  intro data cap h
  simp [decodeAndDrawZone, h]

theorem claim6_sizeGuard_witness :
    decodeAndDrawZone [65, 65, 65, 65] 2 = (ZoneDecodeResult.sizeError, []) :=
  claim6_sizeGuard [65, 65, 65, 65] 2 (by decide)

/-- C7: backoff behaviour.  For `main-v6.cpp`: the delay equals
`1000 ms × 2^min(failures, MAX_BACKOFF_ERRORS)` for every failure
count, is monotone non-decreasing, and never exceeds the ceiling-capped
maximum `1000 × 2^5`.  For `main-v7.cpp`: for failure counts with `n`
and `n+1` at or below the ceiling the delay equals
`2500 ms × 2^min(n, 5)`, is monotone non-decreasing, and never exceeds
the 60 s cap. -/
theorem claim7_backoff :
    (∀ n, getBackoffDelay_v6 n = 1000 * 2 ^ min n MAX_BACKOFF_ERRORS) ∧
    (∀ n, getBackoffDelay_v6 n ≤ getBackoffDelay_v6 (n + 1)) ∧
    (∀ n, getBackoffDelay_v6 n ≤ 1000 * 2 ^ MAX_BACKOFF_ERRORS) ∧
    (∀ n, 1 ≤ n → n + 1 ≤ MAX_BACKOFF_ERRORS →
      getBackoffDelay_v7 n = 2500 * 2 ^ min n MAX_BACKOFF_ERRORS) ∧
    (∀ n, getBackoffDelay_v7 n ≤ getBackoffDelay_v7 (n + 1)) ∧
    (∀ n, getBackoffDelay_v7 n ≤ 60000) := by
  refine ⟨?_, ?_, ?_, ?_, ?_, ?_⟩
  · intro n
    simp [getBackoffDelay_v6, Nat.shiftLeft_eq, Nat.mul_comm]
  · intro n
    simp only [getBackoffDelay_v6, Nat.shiftLeft_eq, Nat.one_mul]
    exact Nat.mul_le_mul_right 1000
      (Nat.pow_le_pow_right (by norm_num) (by omega))
  · intro n
    simp only [getBackoffDelay_v6, Nat.shiftLeft_eq, Nat.one_mul,
      Nat.mul_comm 1000]
    exact Nat.mul_le_mul_right 1000
      (Nat.pow_le_pow_right (by norm_num) (Nat.min_le_right _ _))
  · intro n h1 h2
    have hn : n ≤ 4 := by
      simp only [MAX_BACKOFF_ERRORS] at h2
      omega
    interval_cases n <;> decide
  · intro n
    simp only [getBackoffDelay_v7, Nat.shiftLeft_eq]
    exact min_le_min
      (Nat.mul_le_mul_left 5000
        (Nat.pow_le_pow_right (by norm_num) (by omega))) le_rfl
  · intro n
    exact Nat.min_le_right _ _

theorem claim7_backoff_witness :
    getBackoffDelay_v6 3 = 1000 * 2 ^ min 3 MAX_BACKOFF_ERRORS ∧
    getBackoffDelay_v7 2 = 2500 * 2 ^ min 2 MAX_BACKOFF_ERRORS :=
  ⟨claim7_backoff.1 3,
   claim7_backoff.2.2.2.1 2 (by decide) (by decide)⟩

/-- C8: in `main-v7.cpp`, a zone whose fetch fails in a cycle keeps its
`zoneChanged` flag set after the cycle: only a successful
`fetchAndDrawZone` clears the flag. -/
theorem claim8_failedFetchKeepsFlag :
    ∀ (s : V7State) (now : ℕ) (fetchOk : Fin 4 → Bool) (i : Fin 4),
      fetchOk i = false → s.zoneChanged i = true →
      (v7Cycle s now fetchOk).zoneChanged i = true := by
  intro s now f i hf hc
  simp only [v7Cycle]
  split <;> split_ifs <;> simp [hf, hc]

/-- C5 fails as stated: the decoder tolerates whitespace, but the
precomputed length does not.  The perfectly ordinary payload
`"QQ==\n"` (valid base64 followed by a newline) has precomputed length
2 while the decoder produces 1 byte: the trailing newline hides the
padding from the length computation. -/
theorem claim5_counterexample :
    decode_base64_length [81, 81, 61, 61, 10] = 2 ∧
    (decode_base64 [81, 81, 61, 61, 10]).length = 1 := by decide

lemma getD_sym_ne_61 (syms : List ℕ)
    (hsym : ∀ c ∈ syms, (base64_char_value c).isSome = true)
    (i : ℕ) (hi : i < syms.length) : syms.getD i 0 ≠ 61 := by
  rw [List.getD_eq_getElem syms 0 hi]
  exact b64_symbol_ne_61 (hsym _ (List.getElem_mem hi))

lemma declen_arith (n p : ℕ) (hp : p ≤ 2) (h4 : 4 ≤ n) (hmod : n % 4 = 0)
    (hlt : n * 3 < 2 ^ 32) :
    (n * 3 % 2 ^ 32 / 4 + (2 ^ 32 - p)) % 2 ^ 32 = 6 * (n - p) / 8 := by
  have e32 : (2 : ℕ) ^ 32 = 4294967296 := by norm_num
  rw [e32] at hlt ⊢
  rw [Nat.mod_eq_of_lt hlt]
  have he : n * 3 / 4 + (4294967296 - p) = (n * 3 / 4 - p) + 4294967296 := by
    omega
  rw [he, Nat.add_mod_right, Nat.mod_eq_of_lt (by omega)]
  omega

/-- C5 (amended): for every whitespace-free valid base64 input — a run
of standard symbols followed by `p ≤ 2` padding bytes, total length a
multiple of 4 (and small enough that the 32-bit `size_t` length
computation cannot overflow) — the precomputed decode length equals
the number of bytes the streaming decoder writes. -/
theorem claim5_amended :
    ∀ (syms : List ℕ) (p : ℕ),
      (∀ c ∈ syms, (base64_char_value c).isSome = true) →
      p ≤ 2 → (syms.length + p) % 4 = 0 →
      (syms.length + p) * 3 < 2 ^ 32 →
      decode_base64_length (syms ++ List.replicate p 61) =
        (decode_base64 (syms ++ List.replicate p 61)).length := by
  intro syms p hsym hp hmod hlt
  have e32 : (2 : ℕ) ^ 32 = 4294967296 := by norm_num
  by_cases h0 : syms.length + p = 0
  · have hp0 : p = 0 := by omega
    have hs : syms = [] := List.eq_nil_of_length_eq_zero (by omega)
    subst hp0
    subst hs
    rfl
  · have h4 : 4 ≤ syms.length + p := by omega
    interval_cases p
    · -- no padding
      rw [List.replicate_zero, List.append_nil]
      have hRHS : (decode_base64 syms).length = 6 * syms.length / 8 := by
        rw [decode_base64, if_neg (by omega)]
        rw [auxLen_sym syms hsym 0 0 [] (by omega)]
        simp
      rw [hRHS]
      simp only [decode_base64_length]
      rw [if_neg (show ¬(syms.length = 0) from by omega)]
      have hgd1 : syms.getD (syms.length - 1) 0 ≠ 61 :=
        getD_sym_ne_61 syms hsym _ (by omega)
      have hgd2 : syms.getD (syms.length - 2) 0 ≠ 61 :=
        getD_sym_ne_61 syms hsym _ (by omega)
      simp only [hgd1, hgd2, and_false, if_false, Nat.add_zero]
      rw [declen_arith syms.length 0 (by omega) (by omega) (by omega)
        (by omega)]
      omega
    · -- one padding byte
      rw [List.replicate_one]
      have hlen1 : (syms ++ [61]).length = syms.length + 1 := by simp
      have hgd1 : (syms ++ [61]).getD (syms.length + 1 - 1) 0 = 61 := by
        have he : syms.length + 1 - 1 = syms.length := by omega
        rw [he, List.getD_append_right _ _ _ _ (le_refl _)]
        simp
      have hgd2 : (syms ++ [61]).getD (syms.length + 1 - 2) 0 ≠ 61 := by
        have he : syms.length + 1 - 2 = syms.length - 1 := by omega
        rw [he, List.getD_append _ _ _ _ (by omega)]
        exact getD_sym_ne_61 syms hsym _ (by omega)
      have hRHS : (decode_base64 (syms ++ [61])).length =
          6 * syms.length / 8 := by
        rw [decode_base64, if_neg (by rw [hlen1]; omega)]
        rw [auxLen_pad syms hsym [] 0 0 [] (by omega)]
        simp
      rw [hRHS]
      simp only [decode_base64_length]
      rw [hlen1]
      rw [if_neg (show ¬(syms.length + 1 = 0) from by omega)]
      have hc1 : (1 : ℕ) ≤ syms.length + 1 := by omega
      simp only [hgd1, hgd2, hc1, eq_self_iff_true, and_true, true_and,
        and_false, if_true, if_false, Nat.add_zero]
      rw [declen_arith (syms.length + 1) 1 (by omega) (by omega) (by omega)
        (by omega)]
      omega
    · -- two padding bytes
      rw [show List.replicate 2 61 = [61, 61] from rfl]
      have hlen2 : (syms ++ [61, 61]).length = syms.length + 2 := by simp
      have hgd1 : (syms ++ [61, 61]).getD (syms.length + 2 - 1) 0 = 61 := by
        have he : syms.length + 2 - 1 = syms.length + 1 := by omega
        rw [he, List.getD_append_right _ _ _ _ (by omega)]
        have he2 : syms.length + 1 - syms.length = 1 := by omega
        rw [he2]
        rfl
      have hgd2 : (syms ++ [61, 61]).getD (syms.length + 2 - 2) 0 = 61 := by
        have he : syms.length + 2 - 2 = syms.length := by omega
        rw [he, List.getD_append_right _ _ _ _ (le_refl _)]
        simp
      have hRHS : (decode_base64 (syms ++ [61, 61])).length =
          6 * syms.length / 8 := by
        rw [decode_base64, if_neg (by rw [hlen2]; omega)]
        rw [auxLen_pad syms hsym [61] 0 0 [] (by omega)]
        simp
      rw [hRHS]
      simp only [decode_base64_length]
      rw [hlen2]
      rw [if_neg (show ¬(syms.length + 2 = 0) from by omega)]
      have hc1 : (1 : ℕ) ≤ syms.length + 2 := by omega
      have hc2 : (2 : ℕ) ≤ syms.length + 2 := by omega
      simp only [hgd1, hgd2, hc1, hc2, eq_self_iff_true, and_true, true_and,
        if_true]
      rw [show (1 : ℕ) + 1 = 2 from rfl]
      rw [declen_arith (syms.length + 2) 2 (by omega) (by omega) (by omega)
        (by omega)]
      omega

theorem claim5_amended_witness :
    decode_base64_length ([81, 85, 73] ++ List.replicate 1 61) =
      (decode_base64 ([81, 85, 73] ++ List.replicate 1 61)).length :=
  claim5_amended [81, 85, 73] 1 (by decide) (by decide) (by decide)
    (by norm_num)

/-- C9 fails on the code: a syntactically well-formed 1-bit BMP
container declaring height exactly 0 is accepted by the BMP tail of
`fetchAndDrawZone` in `main-v7.cpp` — the function returns success
having drawn nothing, instead of failing with a format error as the
design mandates. -/
theorem claim9_zeroHeightAccepted :
    drawBMPZone bmp62 { id := "header", x := 0, y := 0, w := 800, h := 94 } =
      some [] := by decide

/-- C10 fails on the code: for the malformed input `"AAAA="` the
precomputed decode length is 2 but the streaming decoder writes 3
bytes, so the capacity check of `decodeAndDrawZone` passes for a
2-byte destination and the decoder then writes one byte past it. -/
theorem claim10_lengthUnderestimates :
    decode_base64_length [65, 65, 65, 65, 61] = 2 ∧
    (decode_base64 [65, 65, 65, 65, 61]).length = 3 ∧
    decodeAndDrawZone [65, 65, 65, 65, 61] 2 =
      (ZoneDecodeResult.formatError, [0, 0, 0]) := by decide

theorem claim8_failedFetchKeepsFlag_witness :
    (v7Cycle
      { initialDrawDone := true, lastRefresh := 0, lastFullRefresh := 0,
        prCount := 3, consecutiveErrors := 0, lastErrorTime := 0,
        zoneChanged := fun _ => true } 5
      (fun i => decide (i.val = 0))).zoneChanged 2 = true :=
  claim8_failedFetchKeepsFlag _ 5 _ 2 (by decide) (by decide)
